import Mathlib

/-!
# Verification of the Multi-weather city dashboard server core

Shallow embedding of `src/server/controllers/cityController.js` together
with the Mongoose `City` schema (`src/server/models/City.js`).  The MongoDB
collection is modelled as a `List City`; Mongo's guarantee that `_id` is
unique within a collection is the `idUnique` predicate.  The external
weather provider (axios call to Visual Crossing) is modelled as a function
`City → Option ProviderResponse`, `none` standing for any thrown error.
-/

namespace MultiWeather

/-- A document of the `cities` collection, following `citySchema` in
`src/server/models/City.js` (fields `userId`, `cityName`, `country`,
`favorite`, `addedAt`; `_id` is the Mongo document id, here `id`). -/
structure City where
  id : Nat
  userId : Nat
  cityName : String
  country : Option String
  favorite : Bool
  addedAt : Nat
  deriving DecidableEq, Repr

/-- MongoDB enforces that `_id` is unique within a collection. -/
def idUnique (store : List City) : Prop :=
  store.Pairwise (fun a b => a.id ≠ b.id)

instance (store : List City) : Decidable (idUnique store) := by
  unfold idUnique; infer_instance

/-- The query `City.find({ userId: req.userId })`: all documents whose `userId`
matches. -/
def findByOwner (store : List City) (owner : Nat) : List City :=
  store.filter (fun c => c.userId == owner)

/-- The comparator of `.sort({ addedAt: -1 })`: `a` before `b` when
`a.addedAt ≥ b.addedAt` (most recent first). -/
def addedAtDesc (a b : City) : Prop := b.addedAt ≤ a.addedAt

instance : DecidableRel addedAtDesc := fun a b => by
  unfold addedAtDesc; infer_instance

instance : IsTotal City addedAtDesc :=
  ⟨fun a b => Nat.le_total b.addedAt a.addedAt⟩

instance : IsTrans City addedAtDesc :=
  ⟨fun _ _ _ hab hbc => Nat.le_trans hbc hab⟩

/-- The query `City.find({ userId: req.userId }).sort({ addedAt: -1 })` in
`getCities`: the owner's documents, most recently added first. -/
def listByOwner (store : List City) (owner : Nat) : List City :=
  List.insertionSort addedAtDesc (findByOwner store owner)

/-- The lookup `City.findOne({ _id: req.params.id, userId: req.userId })`, the
ownership-scoped lookup shared by `toggleFavorite` and `deleteCity`. -/
def findOneByIdAndOwner (store : List City) (cityId owner : Nat) : Option City :=
  store.find? (fun c => c.id == cityId && c.userId == owner)

/-- The write-back `city.save()` after mutation: Mongoose writes the document back by its
`_id`. -/
def saveCity (store : List City) (c : City) : List City :=
  store.map (fun x => if x.id == c.id then c else x)

/-- The call `city.deleteOne()`: removes the document with that `_id`. -/
def deleteOneById (store : List City) (cityId : Nat) : List City :=
  store.filter (fun x => !(x.id == cityId))

/-- Outcome of `toggleFavorite`: 404 `City not found`, or 200 with the
updated city. -/
inductive ToggleResult where
  | notFound
  | ok (city : City)
  deriving DecidableEq, Repr

/-- Handler `toggleFavorite` in `cityController.js`: look the city up scoped to the
requesting owner; 404 if absent, otherwise flip `favorite` and save. -/
def toggleFavorite (store : List City) (owner cityId : Nat) :
    ToggleResult × List City :=
  match findOneByIdAndOwner store cityId owner with
  | none => (.notFound, store)
  | some c =>
      let c' := { c with favorite := !c.favorite }
      (.ok c', saveCity store c')

/-- Outcome of `deleteCity`: 404 `City not found`, or 200 `City removed`. -/
inductive DeleteResult where
  | notFound
  | removed
  deriving DecidableEq, Repr

/-- Handler `deleteCity` in `cityController.js`: same ownership-scoped lookup, then
`city.deleteOne()`. -/
def deleteCity (store : List City) (owner cityId : Nat) :
    DeleteResult × List City :=
  match findOneByIdAndOwner store cityId owner with
  | none => (.notFound, store)
  | some c => (.removed, deleteOneById store c.id)

/-- Whether a document with this `(userId, cityName)` pair is present: the
condition under which the unique index
`citySchema.index({ userId: 1, cityName: 1 }, { unique: true })` rejects an
insert with error code 11000. -/
def hasOwnerCityPair (store : List City) (owner : Nat) (name : String) : Bool :=
  store.any (fun c => c.userId == owner && c.cityName == name)

/-- Outcome of `createCity`: 201 with the new document, or 400
`City already added` (Mongo duplicate-key error 11000 caught in the
controller). -/
inductive CreateResult where
  | created (c : City)
  | duplicate
  deriving DecidableEq, Repr

/-- The insert `City.create({ userId: req.userId, cityName, country })` under the
unique `(userId, cityName)` index: the insert and the uniqueness check are
one atomic write.  `newId` is the Mongo-generated `_id`, `now` the
`Date.now` default for `addedAt`, `favorite` defaults to `false`. -/
def createCity (store : List City) (owner newId : Nat) (name : String)
    (country : Option String) (now : Nat) : CreateResult × List City :=
  if hasOwnerCityPair store owner name then
    (.duplicate, store)
  else
    let c : City :=
      { id := newId, userId := owner, cityName := name, country := country,
        favorite := false, addedAt := now }
    (.created c, store ++ [c])

/-- The JSON body of `POST /cities` as the controller sees it.  Clients may
send extra fields; `userId` and `ownerId` here stand for attacker-supplied
owner fields, which `createCity`'s destructuring
`const { cityName, country } = req.body` never reads. -/
structure CityBody where
  cityName : String
  country : Option String
  userId : Option Nat
  ownerId : Option Nat
  deriving DecidableEq, Repr

/-- A request that passed `authMiddleware`: `userId` is the verified
token's subject attached as `req.userId`. -/
structure AuthedRequest where
  userId : Nat
  body : CityBody
  deriving DecidableEq, Repr

/-- Handler `createCity` at the request level: the persisted owner is
`req.userId`; `cityName` and `country` are the only fields read from the
body. -/
def createCityHandler (store : List City) (req : AuthedRequest)
    (newId now : Nat) : CreateResult × List City :=
  createCity store req.userId newId req.body.cityName req.body.country now

/-! ## Weather gateway and read aggregator (`getCities`) -/

/-- JavaScript `Math.round` on the provider's numeric temperature fields,
modelled on rationals: round half-up. -/
def jsRound (q : ℚ) : ℤ := ⌊q + 1 / 2⌋

/-- The `params` object of the axios request in `getCities`. -/
structure AxiosParams where
  unitGroup : String
  key : String
  contentType : String
  deriving DecidableEq, Repr

/-- The axios request config in `getCities`.  `timeout` is the axios
`timeout` option in milliseconds; a JS object without the field leaves
axios at its default of no timeout, modelled as `none`. -/
structure AxiosConfig where
  params : AxiosParams
  timeout : Option Nat
  deriving DecidableEq, Repr

/-- The exact config object `getCities` passes to `axios.get` for every
city: `{ params: { unitGroup: 'metric', key: …, contentType: 'json' } }` —
no `timeout` field is present. -/
def weatherRequestConfig (apiKey : String) : AxiosConfig :=
  { params := { unitGroup := "metric", key := apiKey, contentType := "json" },
    timeout := none }

/-- One entry of `response.data.days` from the provider. -/
structure ProviderDay where
  datetime : String
  tempmin : ℚ
  tempmax : ℚ
  conditions : String
  icon : String
  deriving DecidableEq, Repr

/-- Object `response.data.currentConditions` from the provider. -/
structure ProviderCurrent where
  temp : ℚ
  conditions : String
  feelslike : ℚ
  humidity : ℚ
  windspeed : ℚ
  deriving DecidableEq, Repr

/-- A successful provider payload (`response.data`). -/
structure ProviderResponse where
  currentConditions : ProviderCurrent
  days : List ProviderDay
  deriving DecidableEq, Repr

/-- One entry of the assembled `forecast` array. -/
structure ForecastDay where
  date : String
  minTemp : ℤ
  maxTemp : ℤ
  description : String
  icon : String
  deriving DecidableEq, Repr

/-- The assembled `currentWeather` object.  The degraded branch builds an
object with only `temperature` and `description`; the missing JS fields
are `none` here. -/
structure CurrentWeather where
  temperature : Option ℤ
  description : String
  feelsLike : Option ℤ
  humidity : Option ℚ
  windSpeed : Option ℚ
  deriving DecidableEq, Repr

/-- One element of the `citiesWithWeather` array returned by `getCities`. -/
structure CityRecord where
  id : Nat
  cityName : String
  isFavorite : Bool
  currentWeather : CurrentWeather
  forecast : List ForecastDay
  deriving DecidableEq, Repr

/-- The mapping `response.data.days.slice(1, 6).map(...)` in `getCities`: days at
indices 1 through 5, temperatures rounded. -/
def forecastFromDays (days : List ProviderDay) : List ForecastDay :=
  ((days.drop 1).take 5).map (fun day =>
    { date := day.datetime, minTemp := jsRound day.tempmin,
      maxTemp := jsRound day.tempmax, description := day.conditions,
      icon := day.icon })

/-- The record `getCities` builds for one city: the `try` branch on a
successful fetch (`some r`), the `catch` branch on any failure (`none`). -/
def assembleRecord (city : City) (resp : Option ProviderResponse) : CityRecord :=
  match resp with
  | some r =>
      { id := city.id, cityName := city.cityName, isFavorite := city.favorite,
        currentWeather :=
          { temperature := some (jsRound r.currentConditions.temp),
            description := r.currentConditions.conditions.toLower,
            feelsLike := some (jsRound r.currentConditions.feelslike),
            humidity := some r.currentConditions.humidity,
            windSpeed := some r.currentConditions.windspeed },
        forecast := forecastFromDays r.days }
  | none =>
      { id := city.id, cityName := city.cityName, isFavorite := city.favorite,
        currentWeather :=
          { temperature := none, description := "unavailable",
            feelsLike := none, humidity := none, windSpeed := none },
        forecast := [] }

/-- The `catch` branch's record for a city, spelled out. -/
def degradedRecord (city : City) : CityRecord :=
  { id := city.id, cityName := city.cityName, isFavorite := city.favorite,
    currentWeather :=
      { temperature := none, description := "unavailable",
        feelsLike := none, humidity := none, windSpeed := none },
    forecast := [] }

/-- The fan-out `Promise.all(cities.map(...))` in `getCities`: one record per city,
each depending only on that city's own fetch outcome. -/
def withWeather (cities : List City) (fetch : City → Option ProviderResponse) :
    List CityRecord :=
  cities.map (fun c => assembleRecord c (fetch c))

/-- The full body of the 200 response of `GET /cities`:
`{ favorites, cities }` with
`favorites = citiesWithWeather.filter(city => city.isFavorite)`. -/
structure ListResponse where
  favorites : List CityRecord
  cities : List CityRecord
  deriving DecidableEq, Repr

/-- Handler `getCities` end to end: owner-scoped sorted fetch, per-city weather
merge, favorites partition. -/
def listWithWeather (store : List City) (owner : Nat)
    (fetch : City → Option ProviderResponse) : ListResponse :=
  let citiesWithWeather := withWeather (listByOwner store owner) fetch
  { favorites := citiesWithWeather.filter (fun r => r.isFavorite),
    cities := citiesWithWeather }

/-! ## Helper lemmas -/

/-- In a store with unique `_id`s, two members with the same `id` are the
same document. -/
theorem eq_of_idUnique {store : List City} (hu : idUnique store)
    {a b : City} (ha : a ∈ store) (hb : b ∈ store) (h : a.id = b.id) :
    a = b := by
  induction store with
  | nil => cases ha
  | cons x xs ih =>
    rcases List.pairwise_cons.mp hu with ⟨hx, hxs⟩
    rcases List.mem_cons.mp ha with rfl | ha'
    · rcases List.mem_cons.mp hb with rfl | hb'
      · rfl
      · exact absurd h (hx b hb')
    · rcases List.mem_cons.mp hb with rfl | hb'
      · exact absurd h.symm (hx a ha')
      · exact ih hxs ha' hb'

/-- The ownership-scoped lookup misses a document owned by someone else:
with unique ids, no document can match both `c.id` and a different owner. -/
theorem findOne_eq_none_of_other_owner {store : List City} (hu : idUnique store)
    {c : City} (hc : c ∈ store) {B : Nat} (hB : c.userId ≠ B) :
    findOneByIdAndOwner store c.id B = none := by
  unfold findOneByIdAndOwner
  rw [List.find?_eq_none]
  intro x hx
  simp only [Bool.and_eq_true, beq_iff_eq, not_and]
  intro hid
  have hxc : x = c := eq_of_idUnique hu hx hc hid
  subst hxc
  exact hB

/-! ## C1: data isolation -/

/-- C1: for distinct registered users `A ≠ B`, a city owned by `A` is never
returned by B's city listing, and B's toggle-favorite and delete requests
on its id answer 404 and leave the store untouched. -/
theorem data_isolation (store : List City) (A B : Nat) (c : City)
    (hu : idUnique store) (hc : c ∈ store) (hcA : c.userId = A) (hAB : A ≠ B) :
    c ∉ listByOwner store B ∧
    toggleFavorite store B c.id = (.notFound, store) ∧
    deleteCity store B c.id = (.notFound, store) := by
  have hB : c.userId ≠ B := by rw [hcA]; exact hAB
  have hnone := findOne_eq_none_of_other_owner hu hc hB
  refine ⟨?_, ?_, ?_⟩
  · intro hmem
    unfold listByOwner findByOwner at hmem
    rw [List.mem_insertionSort, List.mem_filter] at hmem
    exact hB (by simpa using hmem.2)
  · unfold toggleFavorite
    rw [hnone]
  · unfold deleteCity
    rw [hnone]

/-- Witness store for the C1 theorem: two users 1 and 2, city 10 owned by
user 1. -/
def storeC1 : List City :=
  [{ id := 10, userId := 1, cityName := "Paris", country := none,
     favorite := false, addedAt := 3 },
   { id := 11, userId := 2, cityName := "Oslo", country := some "NO",
     favorite := true, addedAt := 5 }]

/-- C1 witness: the isolation theorem instantiated at a concrete store. -/
theorem data_isolation_witness :
    (storeC1.get ⟨0, by decide⟩) ∉ listByOwner storeC1 2 ∧
    toggleFavorite storeC1 2 10 = (.notFound, storeC1) ∧
    deleteCity storeC1 2 10 = (.notFound, storeC1) :=
  data_isolation storeC1 1 2 (storeC1.get ⟨0, by decide⟩)
    (by decide) (by decide) (by decide) (by decide)

/-! ## C4: NotFound exactly on missing owner-scoped id -/

/-- When no document matches `(cityId, owner)`, both mutating operations
answer exactly `(notFound, store)`. -/
theorem ops_notFound_of_no_match (store : List City) (owner cityId : Nat)
    (h : ¬ ∃ c ∈ store, c.id = cityId ∧ c.userId = owner) :
    toggleFavorite store owner cityId = (.notFound, store) ∧
    deleteCity store owner cityId = (.notFound, store) := by
  have hnone : findOneByIdAndOwner store cityId owner = none := by
    unfold findOneByIdAndOwner
    rw [List.find?_eq_none]
    intro x hx hpx
    simp only [Bool.and_eq_true, beq_iff_eq] at hpx
    exact h ⟨x, hx, hpx.1, hpx.2⟩
  constructor
  · unfold toggleFavorite; rw [hnone]
  · unfold deleteCity; rw [hnone]

/-- C4: `toggleFavorite` and `deleteCity` answer 404 exactly when no city
with that id exists for the requesting owner, and for two ids neither of
which has an owner-scoped match — e.g. an id held by a different owner and
a wholly nonexistent id — the two responses (status and store) are
identical, leaking nothing about cross-user existence. -/
theorem notFound_iff_no_owner_match (store : List City) (owner cityId : Nat) :
    ((toggleFavorite store owner cityId).1 = .notFound ↔
      ¬ ∃ c ∈ store, c.id = cityId ∧ c.userId = owner) ∧
    ((deleteCity store owner cityId).1 = .notFound ↔
      ¬ ∃ c ∈ store, c.id = cityId ∧ c.userId = owner) ∧
    (∀ idOther,
      (¬ ∃ c ∈ store, c.id = cityId ∧ c.userId = owner) →
      (¬ ∃ c ∈ store, c.id = idOther ∧ c.userId = owner) →
      toggleFavorite store owner cityId = toggleFavorite store owner idOther ∧
      deleteCity store owner cityId = deleteCity store owner idOther) := by
  refine ⟨?_, ?_, ?_⟩
  · constructor
    · intro hnf hex
      rcases hex with ⟨c, hc, hid, how⟩
      have : findOneByIdAndOwner store cityId owner ≠ none := by
        unfold findOneByIdAndOwner
        intro hn
        rw [List.find?_eq_none] at hn
        exact hn c hc (by simp [hid, how])
      unfold toggleFavorite at hnf
      rcases hfo : findOneByIdAndOwner store cityId owner with _ | c'
      · exact this hfo
      · rw [hfo] at hnf; simp at hnf
    · intro h
      rw [(ops_notFound_of_no_match store owner cityId h).1]
  · constructor
    · intro hnf hex
      rcases hex with ⟨c, hc, hid, how⟩
      have : findOneByIdAndOwner store cityId owner ≠ none := by
        unfold findOneByIdAndOwner
        intro hn
        rw [List.find?_eq_none] at hn
        exact hn c hc (by simp [hid, how])
      unfold deleteCity at hnf
      rcases hfo : findOneByIdAndOwner store cityId owner with _ | c'
      · exact this hfo
      · rw [hfo] at hnf; simp at hnf
    · intro h
      rw [(ops_notFound_of_no_match store owner cityId h).2]
  · intro idOther h1 h2
    have r1 := ops_notFound_of_no_match store owner cityId h1
    have r2 := ops_notFound_of_no_match store owner idOther h2
    exact ⟨r1.1.trans r2.1.symm, r1.2.trans r2.2.symm⟩

/-- C4 witness: in `storeC1`, user 2 asking about id 10 (held by user 1)
and about id 99 (nonexistent) gets identical 404 responses. -/
theorem notFound_iff_witness :
    ((toggleFavorite storeC1 2 10).1 = .notFound ↔
      ¬ ∃ c ∈ storeC1, c.id = 10 ∧ c.userId = 2) ∧
    toggleFavorite storeC1 2 10 = toggleFavorite storeC1 2 99 ∧
    deleteCity storeC1 2 10 = deleteCity storeC1 2 99 :=
  ⟨(notFound_iff_no_owner_match storeC1 2 10).1,
   ((notFound_iff_no_owner_match storeC1 2 10).2.2 99
      (by decide) (by decide)).1,
   ((notFound_iff_no_owner_match storeC1 2 10).2.2 99
      (by decide) (by decide)).2⟩

/-! ## C8: listing order -/

/-- C8: the owner-scoped listing is ordered by `addedAt` descending (every
earlier element of the result has an `addedAt` at least that of every later
one), and it holds exactly the owner's documents. -/
theorem listByOwner_sorted_desc (store : List City) (owner : Nat) :
    List.Sorted (fun a b => b.addedAt ≤ a.addedAt) (listByOwner store owner) ∧
    List.Perm (listByOwner store owner) (findByOwner store owner) := by
  exact ⟨List.sorted_insertionSort addedAtDesc (findByOwner store owner),
         List.perm_insertionSort addedAtDesc (findByOwner store owner)⟩

/-! ## C7: favorites partition -/

/-- C7: in every `getCities` response, `favorites` is exactly the
`isFavorite` subset of the assembled records, it is a sublist of `cities`
(hence in the same relative order), and `cities` is the full per-city
merge of the owner's listing. -/
theorem favorites_partition (store : List City) (owner : Nat)
    (fetch : City → Option ProviderResponse) :
    (listWithWeather store owner fetch).favorites =
      (listWithWeather store owner fetch).cities.filter (fun r => r.isFavorite) ∧
    List.Sublist (listWithWeather store owner fetch).favorites
      (listWithWeather store owner fetch).cities ∧
    (∀ r, r ∈ (listWithWeather store owner fetch).favorites ↔
      r ∈ (listWithWeather store owner fetch).cities ∧ r.isFavorite = true) ∧
    (listWithWeather store owner fetch).cities =
      withWeather (listByOwner store owner) fetch := by
  refine ⟨rfl, List.filter_sublist _, ?_, rfl⟩
  intro r
  exact List.mem_filter

/-! ## C3: duplicate (owner, cityName) create fails -/

/-- After any `createCity`, the `(owner, name)` pair is present in the
resulting store. -/
theorem hasOwnerCityPair_after_create (store : List City) (owner newId : Nat)
    (name : String) (country : Option String) (now : Nat) :
    hasOwnerCityPair (createCity store owner newId name country now).2
      owner name = true := by
  unfold createCity
  rcases hdup : hasOwnerCityPair store owner name with _ | _
  · simp only [Bool.false_eq_true, if_false]
    unfold hasOwnerCityPair
    rw [List.any_eq_true]
    refine ⟨_, List.mem_append_right store (List.mem_singleton.mpr rfl), by simp⟩
  · simp [hdup]

/-- A create against a store already holding the pair is rejected
unchanged. -/
theorem createCity_of_pair_present {store : List City} {owner : Nat}
    {name : String} (hdup : hasOwnerCityPair store owner name = true)
    (newId : Nat) (country : Option String) (now : Nat) :
    createCity store owner newId name country now = (.duplicate, store) := by
  unfold createCity
  rw [hdup]
  simp

/-- C3: when a city with the same `(ownerId, cityName)` already exists the
create call answers the duplicate error and persists nothing; consequently
a second create of the same pair, right after any first create of it,
always fails with the duplicate error and leaves the store as the first
call left it. -/
theorem createCity_duplicate (store : List City) (owner : Nat) (name : String)
    (newId newId₂ now now₂ : Nat) (country country₂ : Option String) :
    (∀ c ∈ store, c.userId = owner → c.cityName = name →
       createCity store owner newId name country now = (.duplicate, store)) ∧
    createCity (createCity store owner newId name country now).2
        owner newId₂ name country₂ now₂ =
      (.duplicate, (createCity store owner newId name country now).2) := by
  constructor
  · intro c hc hco hcn
    have hdup : hasOwnerCityPair store owner name = true := by
      unfold hasOwnerCityPair
      rw [List.any_eq_true]
      exact ⟨c, hc, by simp [hco, hcn]⟩
    exact createCity_of_pair_present hdup newId country now
  · exact createCity_of_pair_present
      (hasOwnerCityPair_after_create store owner newId name country now)
      newId₂ country₂ now₂

/-- C3 witness: user 1 already has Paris in `storeC1`; creating Paris for
user 1 again is rejected with no new record, and so is the second of two
back-to-back creates of a fresh pair. -/
theorem createCity_duplicate_witness :
    createCity storeC1 1 12 "Paris" none 9 = (.duplicate, storeC1) ∧
    createCity (createCity storeC1 1 13 "Rome" none 9).2 1 14 "Rome" none 10 =
      (.duplicate, (createCity storeC1 1 13 "Rome" none 9).2) :=
  ⟨(createCity_duplicate storeC1 1 "Paris" 12 0 9 0 none none).1
     (storeC1.get ⟨0, by decide⟩) (by decide) (by decide) (by decide),
   (createCity_duplicate storeC1 1 "Rome" 13 14 9 10 none none).2⟩

/-! ## C10: persisted owner comes from the verified token only -/

/-- C10: the persisted city's `userId` is always `req.userId`, the identity
the auth middleware attached from the verified token; two requests that
agree on `req.userId`, `body.cityName` and `body.country` but differ in any
body-supplied `userId`/`ownerId` field produce identical results. -/
theorem createCity_owner_from_token (store : List City) (req : AuthedRequest)
    (newId now : Nat) :
    (∀ c, (createCityHandler store req newId now).1 = .created c →
       c.userId = req.userId) ∧
    (∀ req₂ : AuthedRequest, req₂.userId = req.userId →
       req₂.body.cityName = req.body.cityName →
       req₂.body.country = req.body.country →
       createCityHandler store req₂ newId now =
         createCityHandler store req newId now) := by
  constructor
  · intro c hcreated
    unfold createCityHandler createCity at hcreated
    rcases hdup : hasOwnerCityPair store req.userId req.body.cityName with _ | _
    · rw [hdup] at hcreated
      simp only [Bool.false_eq_true, if_false] at hcreated
      have := CreateResult.created.inj hcreated
      rw [← this]
    · rw [hdup] at hcreated
      simp at hcreated
  · intro req₂ h1 h2 h3
    unfold createCityHandler
    rw [h1, h2, h3]

/-- A request whose body smuggles owner fields. -/
def reqSmuggle : AuthedRequest :=
  { userId := 1,
    body := { cityName := "Lima", country := none,
              userId := some 2, ownerId := some 2 } }

/-- The same request with a clean body. -/
def reqClean : AuthedRequest :=
  { userId := 1,
    body := { cityName := "Lima", country := none,
              userId := none, ownerId := none } }

/-- C10 witness: a body-supplied `userId: 2` is ignored — the result is the
one for the clean body, and the persisted owner is the token subject 1. -/
theorem createCity_owner_from_token_witness :
    createCityHandler [] reqSmuggle 20 50 = createCityHandler [] reqClean 20 50 ∧
    (createCityHandler [] reqClean 20 50).1 =
      .created { id := 20, userId := 1, cityName := "Lima", country := none,
                 favorite := false, addedAt := 50 } ∧
    ({ id := 20, userId := 1, cityName := "Lima", country := none,
       favorite := false, addedAt := 50 } : City).userId = reqClean.userId :=
  ⟨(createCity_owner_from_token [] reqClean 20 50).2 reqSmuggle rfl rfl rfl,
   rfl,
   (createCity_owner_from_token [] reqClean 20 50).1 _ rfl⟩

/-! ## C2: per-branch failure isolation in the weather merge -/

/-- The merge has one record per city. -/
theorem withWeather_length (cities : List City)
    (fetch : City → Option ProviderResponse) :
    (withWeather cities fetch).length = cities.length := by
  unfold withWeather
  exact List.length_map cities _

/-- C2: if the fetch for the city at position `i` fails, the batch still
produces a record for every city; position `i` carries the degraded record
(`temperature: null`, `description: "unavailable"`, `forecast: []`); every
other position carries exactly the record assembled from its own city and
its own fetch outcome; and any position's record is unchanged under any
other fetch function that agrees on that position's city — one branch's
failure cannot affect another. -/
theorem branch_isolation (cities : List City)
    (fetch : City → Option ProviderResponse)
    (i : Nat) (hi : i < cities.length)
    (hfail : fetch (cities.get ⟨i, hi⟩) = none) :
    (withWeather cities fetch).length = cities.length ∧
    (withWeather cities fetch).get
        ⟨i, by rw [withWeather_length]; exact hi⟩ =
      degradedRecord (cities.get ⟨i, hi⟩) ∧
    (∀ j (hj : j < cities.length), j ≠ i →
      (withWeather cities fetch).get
          ⟨j, by rw [withWeather_length]; exact hj⟩ =
        assembleRecord (cities.get ⟨j, hj⟩) (fetch (cities.get ⟨j, hj⟩))) ∧
    (∀ (fetch' : City → Option ProviderResponse) (j : Nat)
        (hj : j < cities.length),
      fetch' (cities.get ⟨j, hj⟩) = fetch (cities.get ⟨j, hj⟩) →
      (withWeather cities fetch').get
          ⟨j, by rw [withWeather_length]; exact hj⟩ =
        (withWeather cities fetch).get
          ⟨j, by rw [withWeather_length]; exact hj⟩) := by
  refine ⟨withWeather_length cities fetch, ?_, ?_, ?_⟩
  · unfold withWeather
    simp only [List.get_eq_getElem, List.getElem_map]
    rw [show cities[i] = cities.get ⟨i, hi⟩ from rfl, hfail]
    rfl
  · intro j hj _
    unfold withWeather
    simp only [List.get_eq_getElem, List.getElem_map]
  · intro fetch' j hj hagree
    unfold withWeather
    simp only [List.get_eq_getElem, List.getElem_map]
    rw [show cities[j] = cities.get ⟨j, hj⟩ from rfl, hagree]

/-- Witness cities for the weather-merge claims. -/
def cityParisW : City :=
  { id := 1, userId := 7, cityName := "Paris", country := none,
    favorite := true, addedAt := 10 }

def cityOsloW : City :=
  { id := 2, userId := 7, cityName := "Oslo", country := some "NO",
    favorite := false, addedAt := 5 }

/-- A concrete provider payload with six forecast days beyond today. -/
def respW : ProviderResponse :=
  { currentConditions :=
      { temp := 21 / 2, conditions := "Partially Cloudy",
        feelslike := 19 / 2, humidity := 60, windspeed := 12 },
    days :=
      [{ datetime := "0", tempmin := 5, tempmax := 15,
         conditions := "Clear", icon := "clear-day" },
       { datetime := "1", tempmin := 6, tempmax := 16,
         conditions := "Clear", icon := "clear-day" },
       { datetime := "2", tempmin := 7, tempmax := 17,
         conditions := "Clear", icon := "clear-day" },
       { datetime := "3", tempmin := 8, tempmax := 18,
         conditions := "Clear", icon := "clear-day" },
       { datetime := "4", tempmin := 9, tempmax := 19,
         conditions := "Clear", icon := "clear-day" },
       { datetime := "5", tempmin := 10, tempmax := 20,
         conditions := "Clear", icon := "clear-day" },
       { datetime := "6", tempmin := 11, tempmax := 21,
         conditions := "Clear", icon := "clear-day" }] }

/-- A fetch that fails for Paris (id 1) and succeeds elsewhere. -/
def fetchFailParis : City → Option ProviderResponse :=
  fun c => if c.id == 1 then none else some respW

/-- C2 witness: with the fetch failing on Paris, position 0 is the degraded
record and position 1 is Oslo's own successful record. -/
theorem branch_isolation_witness :
    (withWeather [cityParisW, cityOsloW] fetchFailParis).length = 2 ∧
    (withWeather [cityParisW, cityOsloW] fetchFailParis).get ⟨0, by decide⟩ =
      degradedRecord cityParisW ∧
    (withWeather [cityParisW, cityOsloW] fetchFailParis).get ⟨1, by decide⟩ =
      assembleRecord cityOsloW (some respW) := by
  have h := branch_isolation [cityParisW, cityOsloW] fetchFailParis 0
    (by decide) rfl
  exact ⟨h.1, h.2.1, h.2.2.1 1 (by decide) (by decide)⟩

/-! ## C9: five-day forecast and whole-unit rounding -/

/-- C9: when the provider payload carries at least six days (today plus the
five that follow, as the provider's timeline always does), the assembled
record's forecast is exactly the next five days — entry `i` is built from
provider day `i + 1` with its date and description and with min/max
temperatures rounded to whole units — and the current temperature and
feels-like fields are likewise whole-unit roundings of the provider's
values. -/
theorem forecast_and_rounding (city : City) (r : ProviderResponse)
    (hdays : 6 ≤ r.days.length) :
    (assembleRecord city (some r)).forecast.length = 5 ∧
    (∀ i, i < 5 → ∀ d : ProviderDay, r.days[i + 1]? = some d →
      (assembleRecord city (some r)).forecast[i]? =
        some { date := d.datetime, minTemp := jsRound d.tempmin,
               maxTemp := jsRound d.tempmax, description := d.conditions,
               icon := d.icon }) ∧
    (assembleRecord city (some r)).currentWeather.temperature =
      some (jsRound r.currentConditions.temp) ∧
    (assembleRecord city (some r)).currentWeather.feelsLike =
      some (jsRound r.currentConditions.feelslike) := by
  refine ⟨?_, ?_, rfl, rfl⟩
  · simp only [assembleRecord, forecastFromDays, List.length_map,
      List.length_take, List.length_drop]
    omega
  · intro i hi d hd
    simp only [assembleRecord, forecastFromDays]
    rw [List.getElem?_map, List.getElem?_take_of_lt hi, List.getElem?_drop,
      Nat.add_comm 1 i, hd]
    rfl

/-- C9 witness: the concrete seven-day payload `respW` yields a five-entry
forecast whose first entry is day 1 rounded, and rounded current fields
(`temp = 10.5 → 11`, `feelslike = 9.5 → 10`). -/
theorem forecast_and_rounding_witness :
    6 ≤ respW.days.length ∧
    (assembleRecord cityParisW (some respW)).forecast.length = 5 ∧
    (assembleRecord cityParisW (some respW)).forecast[0]? =
      some { date := "1", minTemp := 6, maxTemp := 16,
             description := "Clear", icon := "clear-day" } ∧
    (assembleRecord cityParisW (some respW)).currentWeather.temperature =
      some 11 ∧
    (assembleRecord cityParisW (some respW)).currentWeather.feelsLike =
      some 10 := by
  have h := forecast_and_rounding cityParisW respW (by norm_num [respW])
  refine ⟨by norm_num [respW], h.1, ?_, ?_, ?_⟩
  · have h0 := h.2.1 0 (by norm_num)
      { datetime := "1", tempmin := 6, tempmax := 16,
        conditions := "Clear", icon := "clear-day" } rfl
    rw [h0]
    have hmin : jsRound 6 = 6 := by norm_num [jsRound]
    have hmax : jsRound 16 = 16 := by norm_num [jsRound]
    rw [hmin, hmax]
  · rw [h.2.2.1]
    norm_num [respW, jsRound]
  · rw [h.2.2.2]
    norm_num [respW, jsRound]

/-! ## C5: toggleFavorite is involutive -/

/-- Writing back a document whose id occurs nowhere in the store changes
nothing. -/
theorem saveCity_of_absent (s : List City) (c : City)
    (h : ∀ y ∈ s, y.id ≠ c.id) : saveCity s c = s := by
  induction s with
  | nil => rfl
  | cons a as ih =>
    unfold saveCity at ih ⊢
    rw [List.map_cons]
    rw [if_neg (by simp [h a (List.mem_cons_self a as)])]
    rw [ih (fun y hy => h y (List.mem_cons_of_mem a hy))]

/-- Toggling skips a head whose id is not the requested one. -/
theorem toggleFavorite_cons_of_ne (x : City) (s : List City)
    (owner cityId : Nat) (hx : x.id ≠ cityId) :
    toggleFavorite (x :: s) owner cityId =
      ((toggleFavorite s owner cityId).1,
       x :: (toggleFavorite s owner cityId).2) := by
  unfold toggleFavorite findOneByIdAndOwner
  rw [List.find?_cons_of_neg _ (by simp [hx])]
  cases hf : s.find? (fun c => c.id == cityId && c.userId == owner) with
  | none => rfl
  | some f =>
    have hf' := List.find?_some hf
    have hfid : f.id = cityId := by
      simp only [Bool.and_eq_true, beq_iff_eq] at hf'
      exact hf'.1
    show (_, saveCity (x :: s) _) = _
    unfold saveCity
    rw [List.map_cons]
    rw [if_neg (by simp [show x.id ≠ f.id from hfid ▸ hx])]

/-- Toggling a matching head with an id unique to it flips exactly that
document. -/
theorem toggleFavorite_cons_of_match (d : City) (s : List City)
    (owner cityId : Nat) (hid : d.id = cityId) (how : d.userId = owner)
    (hs : ∀ y ∈ s, y.id ≠ d.id) :
    toggleFavorite (d :: s) owner cityId =
      (.ok { d with favorite := !d.favorite },
       { d with favorite := !d.favorite } :: s) := by
  unfold toggleFavorite findOneByIdAndOwner
  rw [List.find?_cons_of_pos _ (by simp [hid, how])]
  show (_, saveCity (d :: s) _) = _
  unfold saveCity
  rw [List.map_cons]
  rw [if_pos (by simp)]
  rw [show s.map (fun x => if x.id == City.id { d with favorite := !d.favorite }
        then { d with favorite := !d.favorite } else x) =
      saveCity s { d with favorite := !d.favorite } from rfl]
  rw [saveCity_of_absent s { d with favorite := !d.favorite }
    (fun y hy => hs y hy)]

/-- C5: `toggleFavorite` is involutive — toggling an owner's city twice
answers the original city (so its `favorite` flag is back to its original
value) and restores the store exactly. -/
theorem toggleFavorite_involutive (store : List City) (owner : Nat) (c : City)
    (hu : idUnique store) (hc : c ∈ store) (hco : c.userId = owner) :
    toggleFavorite (toggleFavorite store owner c.id).2 owner c.id =
      (.ok c, store) := by
  induction store with
  | nil => cases hc
  | cons x xs ih =>
    rcases List.pairwise_cons.mp hu with ⟨hx, hxs⟩
    rcases List.mem_cons.mp hc with rfl | hcxs
    · have hflip : ∀ b, ({ { c with favorite := b } with
          favorite := !({ c with favorite := b } : City).favorite } : City) =
          { c with favorite := !b } := fun b => rfl
      rw [toggleFavorite_cons_of_match c xs owner c.id rfl hco
        (fun y hy => (hx y hy).symm)]
      rw [toggleFavorite_cons_of_match { c with favorite := !c.favorite } xs
        owner c.id rfl hco (fun y hy => (hx y hy).symm)]
      rw [hflip]
      rw [Bool.not_not]
    · have hxid : x.id ≠ c.id := hx c hcxs
      rw [toggleFavorite_cons_of_ne x xs owner c.id hxid]
      rw [toggleFavorite_cons_of_ne x _ owner c.id hxid]
      rw [ih hxs hcxs]

/-- C5 witness: toggling city 10 of user 1 twice in `storeC1` returns the
original city and store. -/
theorem toggleFavorite_involutive_witness :
    toggleFavorite (toggleFavorite storeC1 1 10).2 1 10 =
      (.ok (storeC1.get ⟨0, by decide⟩), storeC1) :=
  toggleFavorite_involutive storeC1 1 (storeC1.get ⟨0, by decide⟩)
    (by decide) (by decide) (by decide)

/-! ## C6: no timeout bound on the per-city weather call -/

/-- C6: the config `getCities` hands to `axios.get` for every per-city
weather call sets no `timeout` option, so axios applies its default of no
timeout: contrary to the specification, no branch of the fan-out is
bounded by a timeout and a non-responding provider call can hang its
branch (and hence `Promise.all`) indefinitely.  Errors that do occur are
caught per branch, but timeout expiry can never occur because no timeout
is ever armed. -/
theorem weatherRequest_has_no_timeout (apiKey : String) :
    (weatherRequestConfig apiKey).timeout = none ∧
    weatherRequestConfig apiKey =
      { params := { unitGroup := "metric", key := apiKey,
                    contentType := "json" },
        timeout := none } :=
  ⟨rfl, rfl⟩

end MultiWeather
